import Mathlib

/-!
Verification of the pilot control-plane command bootstrap (`cmd/pilot/main.go`).

The source is a single Go file defining cobra commands (`discovery`, `sidecar`,
`ingress`, `egress`), a `PersistentPreRunE` that selects a platform adapter and
constructs shared clients, and `main`, which exits non-zero on a command error.

We embed each command's `RunE` as a pure function from its inputs (the adapter
string, the shared global state established by `PersistentPreRunE`, and an
environment record saying which external constructor calls succeed) to an
execution record: the ordered list of observable actions the command performs
(constructor calls, goroutine launches, signal waits) together with its
outcome (nil error, a non-nil error, or a nil-pointer dereference).

Go scoping is modelled faithfully: a `:=` declaration inside an `if` block
creates a fresh variable that shadows any outer variable of the same name, so
assignments to it do not escape the block; a bare `return` in a function with a
named error result returns the current value of the *outer* named variable.
-/

namespace Pilot

/-- Adapter values are strings in the source (`type Adapter string`). -/
def KubernetesAdapter : String := "Kubernetes"

/-- The VMs adapter constant. -/
def VMsAdapter : String := "VMs"

/-- Errors returned by the external constructor calls the commands make.
`multierror.Prefix` only wraps a message around the underlying error, so each
failing call is modelled by one constructor. -/
inductive GoError
  | kubeConnectFailed
  | meshConfigFailed
  | vmsClientFailed
  | tprClientFailed
  | registerFailed
  | makeCacheFailed
  | discoveryServiceFailed
  | watcherFailed
  | vmsConfigFailed
  | identityFailed
  | regAgentFailed
  deriving DecidableEq, Repr

/-- The client handle a `StatusSyncer` is constructed over: the Kubernetes
client (`client`) or the VMs registry client (`vmsClient`). -/
inductive ClientKind
  | k8s
  | vms
  deriving DecidableEq, Repr

/-- Controller values the commands bind to their `serviceController` /
`configController` variables.  `Option CtrlVal` models a possibly-nil Go
interface variable (`none` = nil). -/
inductive CtrlVal
  | kubeController
  | tprController
  | ingressController
  | aggregateController
  | vmsController
  deriving DecidableEq, Repr

/-- One observable step of a command.  Constructor actions record the call
being made (the environment decides whether it succeeds); `run*` actions
record a `go x.Run(...)` launch, with the target interface value where it can
be nil and a Bool saying whether the shared stop channel is passed.
`awaitRunning` (waiting for a controller's first successful sync, e.g. a
HasSynced poll) and `joinLoops` (waiting for launched goroutines to return,
e.g. a WaitGroup join) are operations available to the code but never invoked
anywhere in the source; they appear here so their absence from every trace is
expressible. -/
inductive Action
  | newTprClient
  | registerResources
  | newKubeController
  | newTprController
  | newVmsController
  | makeCache (sources : List CtrlVal)
  | newStatusSyncer (id : Nat) (cl : ClientKind)
  | newDiscoveryService (svc : Option CtrlVal) (cfg : Option CtrlVal)
  | newWatcher (svc : Option CtrlVal) (cfg : Option CtrlVal)
  | makeStopSignal
  | runServiceController (target : Option CtrlVal) (stop : Bool)
  | runConfigController (target : Option CtrlVal) (stop : Bool)
  | runDiscovery (stop : Bool)
  | runSyncer (id : Nat) (cl : ClientKind) (stop : Bool)
  | runWatcher (stop : Bool)
  | awaitRunning (target : Option CtrlVal)
  | joinLoops
  | waitSignal
  deriving DecidableEq, Repr

/-- How a `RunE` invocation ends: `ok` is a nil error return, `err` a non-nil
error return, `nilPanic` a nil-pointer dereference (the Go runtime panics
before `RunE` can return). -/
inductive Outcome
  | ok
  | err (e : GoError)
  | nilPanic (site : String)
  deriving DecidableEq, Repr

/-- The result of running a command: its ordered action trace and outcome. -/
structure Exec where
  actions : List Action
  outcome : Outcome
  deriving DecidableEq, Repr

/-- Which external calls made by the discovery command succeed. -/
structure DiscoveryEnv where
  tprClientOk : Bool
  registerOk : Bool
  makeCacheOk : Bool
  discoveryOk : Bool
  deriving DecidableEq, Repr

/-- Lines 183–204 of `discoveryCmd.RunE`, after the adapter branch.  The
branch's `serviceController`, `configController` and `ingressSyncer` values
flow in as arguments (the branch assigns the outer variables with plain `=`).
Line 194 constructs a *second* `StatusSyncer` from the Kubernetes `client` and
rebinds `ingressSyncer` to it, so the branch's syncer is never the one run. -/
def discoveryTail (serviceController configController : Option CtrlVal)
    (ingressSyncer : Option (Nat × ClientKind)) (pre : List Action)
    (env : DiscoveryEnv) : Exec :=
  -- lines 183–192: context := &proxy.Context{...};
  -- discovery, err := envoy.NewDiscoveryService(serviceController, configController, ...)
  let pre := pre ++ [Action.newDiscoveryService serviceController configController]
  if env.discoveryOk = false then
    ⟨pre, Outcome.err GoError.discoveryServiceFailed⟩
  else
    -- line 194: ingressSyncer := ingress.NewStatusSyncer(mesh, client, flags.controllerOptions)
    -- a fresh syncer over the Kubernetes client, replacing the branch's value
    let ingressSyncer : Nat × ClientKind := (2, ClientKind.k8s)
    let pre := pre ++ [Action.newStatusSyncer 2 ClientKind.k8s]
    -- lines 196–201: stop := make(chan struct{}); go ...Run; cmd.WaitSignal(stop)
    ⟨pre ++ [Action.makeStopSignal,
             Action.runServiceController serviceController true,
             Action.runConfigController configController true,
             Action.runDiscovery false,
             Action.runSyncer ingressSyncer.1 ingressSyncer.2 true,
             Action.waitSignal],
     Outcome.ok⟩

/-- Embedding of `discoveryCmd.RunE` (lines 147–204).  `serviceController`,
`configController` and `ingressSyncer` start nil; the Kubernetes branch opens
a TPR client, registers resources, builds the kube service controller, builds
the aggregate cache over the TPR controller then the ingress controller (in
that registration order), and builds a syncer; the VMs branch builds one VMs
controller serving as both, and a syncer over the VMs client. -/
def discoveryRunE (adapter : String) (env : DiscoveryEnv) : Exec :=
  if adapter = KubernetesAdapter then
    -- lines 152–158: tpr.NewClient
    if env.tprClientOk = false then
      ⟨[Action.newTprClient], Outcome.err GoError.tprClientFailed⟩
    -- lines 160–162: tprClient.RegisterResources()
    else if env.registerOk = false then
      ⟨[Action.newTprClient, Action.registerResources],
       Outcome.err GoError.registerFailed⟩
    else
      -- lines 164–171: kube.NewController; aggregate.MakeCache([tpr, ingress])
      if env.makeCacheOk = false then
        ⟨[Action.newTprClient, Action.registerResources, Action.newKubeController,
          Action.makeCache [CtrlVal.tprController, CtrlVal.ingressController]],
         Outcome.err GoError.makeCacheFailed⟩
      else
        -- line 172: ingressSyncer = ingress.NewStatusSyncer(mesh, client, ...)
        discoveryTail (some CtrlVal.kubeController) (some CtrlVal.aggregateController)
          (some (1, ClientKind.k8s))
          [Action.newTprClient, Action.registerResources, Action.newKubeController,
           Action.makeCache [CtrlVal.tprController, CtrlVal.ingressController],
           Action.newStatusSyncer 1 ClientKind.k8s] env
  else if adapter = VMsAdapter then
    -- lines 173–181: one vms controller is both controllers; syncer over vmsClient
    discoveryTail (some CtrlVal.vmsController) (some CtrlVal.vmsController)
      (some (1, ClientKind.vms))
      [Action.newVmsController, Action.newStatusSyncer 1 ClientKind.vms] env
  else
    -- no branch taken: all three variables stay nil
    discoveryTail none none none [] env

/-- Which external calls made by the sidecar command succeed. -/
structure SidecarEnv where
  tprClientOk : Bool
  vmsConfigOk : Bool
  identityOk : Bool
  regAgentOk : Bool
  watcherOk : Bool
  deriving DecidableEq, Repr

/-- Lines 264–288 of `sidecarCmd.RunE`, after the adapter branch: build the
proxy context and watcher from the *outer* `serviceController` /
`configController` variables and launch the loops.  At line 275
`watcher, err := envoy.NewWatcher(...)` reuses the named return `err` (same
scope), so a watcher failure does return non-nil. -/
def sidecarTail (serviceController configController : Option CtrlVal)
    (pre : List Action) (env : SidecarEnv) : Exec :=
  let pre := pre ++ [Action.newWatcher serviceController configController]
  if env.watcherOk = false then
    ⟨pre, Outcome.err GoError.watcherFailed⟩
  else
    -- lines 281–285: stop := make(chan struct{}); go ...Run(stop); cmd.WaitSignal(stop)
    ⟨pre ++ [Action.makeStopSignal,
             Action.runServiceController serviceController true,
             Action.runConfigController configController true,
             Action.runWatcher true,
             Action.waitSignal],
     Outcome.ok⟩

/-- Embedding of `sidecarCmd.RunE` (lines 215–288).  `meshSet` says whether the global
`mesh` pointer was set by `PersistentPreRunE`; line 220 writes
`mesh.IngressControllerMode` unconditionally, so a nil `mesh` panics before
anything else happens.

In the Kubernetes branch, line 223 (`serviceController := kube.NewController`)
and line 232 (`configController := tpr.NewController`) use `:=` inside the
block, declaring fresh variables that shadow the outer nil ones; line 224
(`tprClient, err := tpr.NewClient`) likewise shadows the named return `err`,
so the bare `return` at line 229 returns the outer `err`, still nil.

In the VMs branch the controllers are assigned with plain `=` (they escape),
the config/identity/registration failures use `return multierror.Prefix(...)`
(explicit value, non-nil), and line 254 (`regAgent, err := ...`) shadows the
outer `regAgent`, which therefore stays nil in the context. -/
def sidecarRunE (adapter : String) (meshSet : Bool) (env : SidecarEnv) : Exec :=
  -- line 220: mesh.IngressControllerMode = proxyconfig.ProxyMeshConfig_OFF
  if meshSet = false then
    ⟨[], Outcome.nilPanic "mesh.IngressControllerMode"⟩
  else
    if adapter = KubernetesAdapter then
      -- line 223: inner serviceController (shadows outer, never escapes)
      -- line 224: tpr.NewClient; inner err shadows the named return
      if env.tprClientOk = false then
        -- line 229: bare return; the outer named err is still nil
        ⟨[Action.newKubeController, Action.newTprClient], Outcome.ok⟩
      else
        -- line 232: inner configController (shadows outer, never escapes);
        -- the outer serviceController and configController remain nil
        sidecarTail none none
          [Action.newKubeController, Action.newTprClient, Action.newTprController] env
    else if adapter = VMsAdapter then
      -- lines 235–240: vms.NewController assigned to both outer controllers
      if env.vmsConfigOk = false then
        -- line 246: return multierror.Prefix(err, ...): explicit non-nil
        ⟨[Action.newVmsController], Outcome.err GoError.vmsConfigFailed⟩
      else if env.identityOk = false then
        ⟨[Action.newVmsController], Outcome.err GoError.identityFailed⟩
      else if env.regAgentOk = false then
        ⟨[Action.newVmsController], Outcome.err GoError.regAgentFailed⟩
      else
        sidecarTail (some CtrlVal.vmsController) (some CtrlVal.vmsController)
          [Action.newVmsController] env
    else
      -- no branch taken: both controllers stay nil
      sidecarTail none none [] env

/-- Which external calls made by `PersistentPreRunE` succeed. -/
structure PreRunEnv where
  kubeCreateOk : Bool
  getMeshOk : Bool
  vmsNewOk : Bool
  deriving DecidableEq, Repr

/-- The package-level variables `PersistentPreRunE` may set (lines 83–86):
whether `client` and `vmsClient` are non-nil, the `mesh` pointer, and the
effective adapter after defaulting. -/
structure GlobalState where
  adapter : String
  clientSet : Bool
  vmsClientSet : Bool
  meshSet : Bool
  deriving DecidableEq, Repr

/-- Embedding of `rootCmd.PersistentPreRunE` (lines 92–141): an empty adapter flag defaults
to Kubernetes; the Kubernetes branch creates the client and fetches the mesh
config; the VMs branch creates the VMs client and takes the default mesh
config; any other adapter value matches no branch and the function returns nil
with `client`, `vmsClient` and `mesh` all left unset. -/
def persistentPreRunE (adapterFlag : String) (env : PreRunEnv) :
    GlobalState × Option GoError :=
  let adapter := if adapterFlag = "" then KubernetesAdapter else adapterFlag
  if adapter = KubernetesAdapter then
    if env.kubeCreateOk = false then
      (⟨adapter, false, false, false⟩, some GoError.kubeConnectFailed)
    else if env.getMeshOk = false then
      (⟨adapter, true, false, false⟩, some GoError.meshConfigFailed)
    else
      (⟨adapter, true, false, true⟩, none)
  else if adapter = VMsAdapter then
    if env.vmsNewOk = false then
      (⟨adapter, false, false, false⟩, some GoError.vmsClientFailed)
    else
      (⟨adapter, false, true, true⟩, none)
  else
    (⟨adapter, false, false, false⟩, none)

/-- Embedding of `main` (lines 370–375): a non-nil error from `rootCmd.Execute()` is logged
and the process exits with `os.Exit(-1)`; a nil error exits normally (0).
A `nilPanic` crashes the runtime before this check; it is not an error
return, so `mainExitCode` is only meaningful for `ok` and `err`. -/
def mainExitCode : Outcome → Int
  | Outcome.err _ => -1
  | _ => 0

/-- Whether `main` logs the error (`glog.Error(err)`), which happens exactly
when `rootCmd.Execute()` returns non-nil. -/
def mainLogsError : Outcome → Bool
  | Outcome.err _ => true
  | _ => false

/-- Actions that launch a background loop (a `go x.Run(...)` statement). -/
def Action.isRunLoop : Action → Bool
  | runServiceController _ _ => true
  | runConfigController _ _ => true
  | runDiscovery _ => true
  | runSyncer _ _ _ => true
  | runWatcher _ => true
  | _ => false

/-- Launches of consumer loops: the discovery responder, the ingress-status
syncer and the proxy-configuration watcher. -/
def Action.isConsumerRun : Action → Bool
  | runDiscovery _ => true
  | runSyncer _ _ _ => true
  | runWatcher _ => true
  | _ => false

/-- Launches of the service-registry and config-store loops. -/
def Action.isControllerRun : Action → Bool
  | runServiceController _ _ => true
  | runConfigController _ _ => true
  | _ => false

/-- Launch of the config controller's loop. -/
def Action.isConfigRun : Action → Bool
  | runConfigController _ _ => true
  | _ => false

/-- The `tprClient.RegisterResources()` call. -/
def Action.isRegister : Action → Bool
  | registerResources => true
  | _ => false

/-- A wait for a loop's first successful sync (never emitted by the code). -/
def Action.isSyncWait : Action → Bool
  | awaitRunning _ => true
  | _ => false

/-- A join on launched goroutines (never emitted by the code). -/
def Action.isJoin : Action → Bool
  | joinLoops => true
  | _ => false

/-- Creation of the shared stop channel. -/
def Action.isMakeStop : Action → Bool
  | makeStopSignal => true
  | _ => false

/-- A `StatusSyncer` construction. -/
def Action.isNewSyncer : Action → Bool
  | newStatusSyncer _ _ => true
  | _ => false

/-- The `envoy.NewDiscoveryService` construction. -/
def Action.isNewDiscoveryService : Action → Bool
  | newDiscoveryService _ _ => true
  | _ => false

/-- Stop-channel discipline of one launch: every `Run` whose signature accepts
a stop channel receives the shared one, while `discovery.Run()` (line 199)
takes no argument at all, so it can never receive it. -/
def Action.stopOk : Action → Bool
  | runServiceController _ s => s
  | runConfigController _ s => s
  | runSyncer _ _ s => s
  | runWatcher s => s
  | runDiscovery s => !s
  | _ => true

/-- Property `allBefore p q t` holds when no `p`-action occurs after any `q`-action in
`t`: every `p`-launch precedes every `q`-launch. -/
def allBefore (p q : Action → Bool) : List Action → Bool
  | [] => true
  | a :: rest => (!(q a) || rest.all (fun x => !(p x))) && allBefore p q rest

/-- Property `precededBy p q t seen` holds when every `q`-action in `t` is strictly
preceded by some `p`-action (`seen`: a `p` occurred before `t`). -/
def precededBy (p q : Action → Bool) : List Action → Bool → Bool
  | [], _ => true
  | a :: rest, seen => (!(q a) || seen) && precededBy p q rest (seen || p a)

/-- No action follows a `cmd.WaitSignal` wait in the trace: once the wait
ends the command returns at once. -/
def nothingAfterWait : List Action → Bool
  | [] => true
  | Action.waitSignal :: rest => rest.isEmpty
  | _ :: rest => nothingAfterWait rest

/-! ## The aggregate configuration cache

`aggregate.MakeCache` lives in `istio.io/pilot/adapter/config/aggregate`,
which is not under src/; only its caller (`discoveryCmd`, lines 165–168) is.
Its merge behaviour is therefore modelled from the spec (§3, §4.2, §8). -/

/-- A `ConfigKey` = (kind, namespace, name) uniquely identifies one
configuration object across all sources (spec §3). -/
structure ConfigKey where
  kind : String
  ns : String
  name : String
  deriving DecidableEq, Repr

/-- A versioned, opaque payload keyed by `ConfigKey` (spec §3). -/
structure ConfigObject where
  key : ConfigKey
  payload : String
  revision : String
  deriving DecidableEq, Repr

/-- The first object of a source claiming key `k`, if any. -/
def findByKey : List ConfigObject → ConfigKey → Option ConfigObject
  | [], _ => none
  | o :: rest, k => if o.key = k then some o else findByKey rest k

/-- Whether a source holds an object for key `k`. -/
def claimsKey (s : List ConfigObject) (k : ConfigKey) : Bool :=
  (findByKey s k).isSome

/-- Modelled from the spec: the merged `Get` of the cache built by
`aggregate.MakeCache` (whose implementation is not under src/).  Sources are
ordered by registration; `Get` consults them in that order and the
first-registered source claiming the key wins (spec §3, §4.2). -/
def aggregateGet : List (List ConfigObject) → ConfigKey → Option ConfigObject
  | [], _ => none
  | s :: rest, k =>
    match findByKey s k with
    | some o => some o
    | none => aggregateGet rest k

/-- Objects of later-registered sources whose key is already claimed by the
earlier source `s`. -/
def losersTo (s : List ConfigObject) (later : List (List ConfigObject)) :
    List ConfigObject :=
  later.flatten.filter (fun o => claimsKey s o.key)

/-- Modelled from the spec: conflict reporting of `aggregate.MakeCache` (not
under src/).  Every object suppressed by the first-registered-wins rule is
reported as a `ConflictDetected` loser, never silently dropped (spec §3, §7). -/
def aggregateConflicts : List (List ConfigObject) → List ConfigObject
  | [] => []
  | s :: rest => losersTo s rest ++ aggregateConflicts rest

/-- The objects of one source that survive into `List kind`: those of the
requested kind whose key is not claimed by an earlier-registered source. -/
def selectKind : List ConfigObject → String → (ConfigKey → Bool) → List ConfigObject
  | [], _, _ => []
  | o :: rest, kind, claimed =>
    if o.key.kind = kind ∧ claimed o.key = false then
      o :: selectKind rest kind claimed
    else
      selectKind rest kind claimed

/-- Helper for `aggregateList`: concatenate per-source survivors, threading
through the set of keys claimed so far. -/
def aggregateListAux : List (List ConfigObject) → String → (ConfigKey → Bool) →
    List ConfigObject
  | [], _, _ => []
  | s :: rest, kind, claimed =>
    selectKind s kind claimed ++
      aggregateListAux rest kind (fun k => claimed k || claimsKey s k)

/-- Modelled from the spec: the merged `List kind` of the cache built by
`aggregate.MakeCache` (not under src/): per-source lists concatenated in
registration order after conflict resolution (spec §4.2). -/
def aggregateList (sources : List (List ConfigObject)) (kind : String) :
    List ConfigObject :=
  aggregateListAux sources kind (fun _ => false)

/-! ## Finite enumeration of the commands' possible executions

`discoveryRunE` and `sidecarRunE` branch only on string equality of the
adapter and on the Booleans of their environments, so each has finitely many
possible results; enumerating them at canonical inputs lets universally
quantified trace properties be settled by one finite check. -/

/-- Every execution the discovery command can produce, at canonical inputs
(one representative per reachable branch; any adapter other than the two
known ones yields the same execution as `"other"`). -/
def discoveryExecs : List Exec :=
  [discoveryRunE KubernetesAdapter ⟨false, true, true, true⟩,
   discoveryRunE KubernetesAdapter ⟨true, false, true, true⟩,
   discoveryRunE KubernetesAdapter ⟨true, true, false, true⟩,
   discoveryRunE KubernetesAdapter ⟨true, true, true, false⟩,
   discoveryRunE KubernetesAdapter ⟨true, true, true, true⟩,
   discoveryRunE VMsAdapter ⟨true, true, true, false⟩,
   discoveryRunE VMsAdapter ⟨true, true, true, true⟩,
   discoveryRunE "other" ⟨true, true, true, false⟩,
   discoveryRunE "other" ⟨true, true, true, true⟩]

/-- Every execution the sidecar command can produce, at canonical inputs. -/
def sidecarExecs : List Exec :=
  [sidecarRunE KubernetesAdapter false ⟨true, true, true, true, true⟩,
   sidecarRunE KubernetesAdapter true ⟨false, true, true, true, true⟩,
   sidecarRunE KubernetesAdapter true ⟨true, true, true, true, false⟩,
   sidecarRunE KubernetesAdapter true ⟨true, true, true, true, true⟩,
   sidecarRunE VMsAdapter true ⟨true, false, true, true, true⟩,
   sidecarRunE VMsAdapter true ⟨true, true, false, true, true⟩,
   sidecarRunE VMsAdapter true ⟨true, true, true, false, true⟩,
   sidecarRunE VMsAdapter true ⟨true, true, true, true, false⟩,
   sidecarRunE VMsAdapter true ⟨true, true, true, true, true⟩,
   sidecarRunE "other" true ⟨true, true, true, true, false⟩,
   sidecarRunE "other" true ⟨true, true, true, true, true⟩]

/-- Every result of the discovery command appears in `discoveryExecs`. -/
lemma discoveryRunE_mem (adapter : String) (env : DiscoveryEnv) :
    discoveryRunE adapter env ∈ discoveryExecs := by
  by_cases h1 : adapter = KubernetesAdapter
  · subst h1
    rcases env with ⟨_ | _, _ | _, _ | _, _ | _⟩ <;> decide
  · by_cases h2 : adapter = VMsAdapter
    · subst h2
      rcases env with ⟨_ | _, _ | _, _ | _, _ | _⟩ <;> decide
    · unfold discoveryRunE
      rw [if_neg h1, if_neg h2]
      rcases env with ⟨_ | _, _ | _, _ | _, _ | _⟩ <;> decide

/-- Every result of the sidecar command appears in `sidecarExecs`. -/
lemma sidecarRunE_mem (adapter : String) (meshSet : Bool) (env : SidecarEnv) :
    sidecarRunE adapter meshSet env ∈ sidecarExecs := by
  by_cases h1 : adapter = KubernetesAdapter
  · subst h1
    rcases meshSet with _ | _ <;>
      rcases env with ⟨_ | _, _ | _, _ | _, _ | _, _ | _⟩ <;> decide
  · by_cases h2 : adapter = VMsAdapter
    · subst h2
      rcases meshSet with _ | _ <;>
        rcases env with ⟨_ | _, _ | _, _ | _, _ | _, _ | _⟩ <;> decide
    · rcases meshSet with _ | _
      · exact List.mem_cons_self _ _
      · unfold sidecarRunE
        rw [if_neg (by simp), if_neg h1, if_neg h2]
        rcases env with ⟨_ | _, _ | _, _ | _, _ | _, _ | _⟩ <;> decide

/-- A Boolean trace property checked on every enumerated execution holds of
every actual execution. -/
lemma check_discovery (p : Exec → Bool) (hall : discoveryExecs.all p = true)
    (adapter : String) (env : DiscoveryEnv) :
    p (discoveryRunE adapter env) = true :=
  List.all_eq_true.mp hall _ (discoveryRunE_mem adapter env)

/-- A Boolean trace property checked on every enumerated execution holds of
every actual execution. -/
lemma check_sidecar (p : Exec → Bool) (hall : sidecarExecs.all p = true)
    (adapter : String) (meshSet : Bool) (env : SidecarEnv) :
    p (sidecarRunE adapter meshSet env) = true :=
  List.all_eq_true.mp hall _ (sidecarRunE_mem adapter meshSet env)

/-! ## Lemmas about the aggregate cache model -/

/-- A successful `findByKey` yields an element of the source with that key. -/
lemma findByKey_mem {s : List ConfigObject} {k : ConfigKey} {o : ConfigObject}
    (h : findByKey s k = some o) : o ∈ s ∧ o.key = k := by
  induction s with
  | nil => simp [findByKey] at h
  | cons a rest ih =>
    rw [findByKey] at h
    by_cases hk : a.key = k
    · rw [if_pos hk] at h
      cases h
      exact ⟨List.mem_cons_self _ _, hk⟩
    · rw [if_neg hk] at h
      rcases ih h with ⟨h1, h2⟩
      exact ⟨List.mem_cons_of_mem _ h1, h2⟩

/-- An unclaimed object of the requested kind survives `selectKind`. -/
lemma mem_selectKind {s : List ConfigObject} {kind : String}
    {claimed : ConfigKey → Bool} {o : ConfigObject} (ho : o ∈ s)
    (hk : o.key.kind = kind) (hc : claimed o.key = false) :
    o ∈ selectKind s kind claimed := by
  induction s with
  | nil => cases ho
  | cons a rest ih =>
    rw [selectKind]
    rcases List.mem_cons.mp ho with rfl | hmem
    · rw [if_pos ⟨hk, hc⟩]
      exact List.mem_cons_self _ _
    · by_cases hcond : a.key.kind = kind ∧ claimed a.key = false
      · rw [if_pos hcond]
        exact List.mem_cons_of_mem _ (ih hmem)
      · rw [if_neg hcond]
        exact ih hmem

/-- Everything `selectKind` keeps comes from the source, has the requested
kind, and is unclaimed by earlier sources. -/
lemma selectKind_mem {s : List ConfigObject} {kind : String}
    {claimed : ConfigKey → Bool} {o : ConfigObject}
    (h : o ∈ selectKind s kind claimed) :
    o ∈ s ∧ o.key.kind = kind ∧ claimed o.key = false := by
  induction s with
  | nil => simp [selectKind] at h
  | cons a rest ih =>
    rw [selectKind] at h
    by_cases hcond : a.key.kind = kind ∧ claimed a.key = false
    · rw [if_pos hcond] at h
      rcases List.mem_cons.mp h with rfl | hmem
      · exact ⟨List.mem_cons_self _ _, hcond.1, hcond.2⟩
      · rcases ih hmem with ⟨m1, m2, m3⟩
        exact ⟨List.mem_cons_of_mem _ m1, m2, m3⟩
    · rw [if_neg hcond] at h
      rcases ih h with ⟨m1, m2, m3⟩
      exact ⟨List.mem_cons_of_mem _ m1, m2, m3⟩

/-! ## Claim theorems -/

/-- C1: the claim fails on the sidecar command.  When `tpr.NewClient` fails
there (Kubernetes adapter, mesh set), the `tprClient, err :=` declaration at
line 224 shadows the named return `err`, so the bare `return` at line 229
yields a NIL error: no loop is started, but `main` sees a nil error, logs
nothing and exits 0 instead of producing a fatal log and a non-zero exit. -/
theorem sidecar_tpr_failure_returns_nil_error :
    sidecarRunE KubernetesAdapter true ⟨false, true, true, true, true⟩ =
      ⟨[Action.newKubeController, Action.newTprClient], Outcome.ok⟩ ∧
    mainExitCode Outcome.ok = 0 ∧
    mainLogsError Outcome.ok = false := by decide

/-- C2: the claim fails.  Under the VMs adapter, with every construction
succeeding, the discovery command constructs TWO status syncers — the
branch's one over the VMs client (line 180) and the line-194 one over the
Kubernetes client — and the Run loop it starts is that of the second,
Kubernetes-client instance, never the adapter-selected one. -/
theorem discovery_constructs_two_syncers_and_runs_wrong_one :
    ((discoveryRunE VMsAdapter ⟨true, true, true, true⟩).actions.filter
        Action.isNewSyncer).length = 2 ∧
    Action.newStatusSyncer 1 ClientKind.vms ∈
      (discoveryRunE VMsAdapter ⟨true, true, true, true⟩).actions ∧
    Action.runSyncer 2 ClientKind.k8s true ∈
      (discoveryRunE VMsAdapter ⟨true, true, true, true⟩).actions ∧
    Action.runSyncer 1 ClientKind.vms true ∉
      (discoveryRunE VMsAdapter ⟨true, true, true, true⟩).actions := by decide

/-- C3 counterexample: in the discovery command (Kubernetes adapter, all
constructions succeeding) a stop channel is created, yet the discovery
responder's loop is started WITHOUT it — `discovery.Run()` at line 199 takes
no argument — so not every started Run loop receives the stop signal. -/
theorem discovery_responder_started_without_stop :
    Action.runDiscovery false ∈
      (discoveryRunE KubernetesAdapter ⟨true, true, true, true⟩).actions ∧
    Action.runDiscovery true ∉
      (discoveryRunE KubernetesAdapter ⟨true, true, true, true⟩).actions ∧
    Action.makeStopSignal ∈
      (discoveryRunE KubernetesAdapter ⟨true, true, true, true⟩).actions := by decide

/-- C3 (amended): in the discovery and sidecar commands at most one stop
channel is created, it is created before any Run loop is launched, and it is
passed to every launched Run loop whose signature accepts one (service
controller, config controller, ingress syncer, watcher); the discovery
responder's `Run` takes no stop argument and never receives it. -/
theorem single_shared_stop_passed_to_stoppable_runs (adapter : String)
    (meshSet : Bool) (envD : DiscoveryEnv) (envS : SidecarEnv) :
    ((discoveryRunE adapter envD).actions.all Action.stopOk = true ∧
     ((discoveryRunE adapter envD).actions.filter Action.isMakeStop).length ≤ 1 ∧
     precededBy Action.isMakeStop Action.isRunLoop
       (discoveryRunE adapter envD).actions false = true) ∧
    ((sidecarRunE adapter meshSet envS).actions.all Action.stopOk = true ∧
     ((sidecarRunE adapter meshSet envS).actions.filter Action.isMakeStop).length ≤ 1 ∧
     precededBy Action.isMakeStop Action.isRunLoop
       (sidecarRunE adapter meshSet envS).actions false = true) := by
  refine ⟨⟨?_, ?_, ?_⟩, ?_, ?_, ?_⟩
  · exact check_discovery (fun e => e.actions.all Action.stopOk) (by decide) adapter envD
  · exact of_decide_eq_true (check_discovery
      (fun e => decide ((e.actions.filter Action.isMakeStop).length ≤ 1))
      (by decide) adapter envD)
  · exact check_discovery
      (fun e => precededBy Action.isMakeStop Action.isRunLoop e.actions false)
      (by decide) adapter envD
  · exact check_sidecar (fun e => e.actions.all Action.stopOk) (by decide)
      adapter meshSet envS
  · exact of_decide_eq_true (check_sidecar
      (fun e => decide ((e.actions.filter Action.isMakeStop).length ≤ 1))
      (by decide) adapter meshSet envS)
  · exact check_sidecar
      (fun e => precededBy Action.isMakeStop Action.isRunLoop e.actions false)
      (by decide) adapter meshSet envS

/-- C4 counterexample: in the discovery command (Kubernetes adapter, all
constructions succeeding) consumer loops are launched although the trace
contains no wait for any controller to have performed its first successful
sync — launch order is program order of the `go` statements only. -/
theorem consumers_launched_with_no_sync_wait :
    (discoveryRunE KubernetesAdapter ⟨true, true, true, true⟩).actions.filter
        Action.isSyncWait = [] ∧
    (discoveryRunE KubernetesAdapter ⟨true, true, true, true⟩).actions.any
        Action.isConsumerRun = true := by decide

/-- C4 (amended): in the discovery and sidecar commands the consumer loops
(discovery responder, ingress syncer, watcher) are launched after the
service/config controller goroutines in program order only; neither command
ever waits for a controller to reach the Running state (first successful
sync) before launching a consumer. -/
theorem consumers_start_after_goroutine_launch_only (adapter : String)
    (meshSet : Bool) (envD : DiscoveryEnv) (envS : SidecarEnv) :
    (allBefore Action.isControllerRun Action.isConsumerRun
       (discoveryRunE adapter envD).actions = true ∧
     (discoveryRunE adapter envD).actions.filter Action.isSyncWait = []) ∧
    (allBefore Action.isControllerRun Action.isConsumerRun
       (sidecarRunE adapter meshSet envS).actions = true ∧
     (sidecarRunE adapter meshSet envS).actions.filter Action.isSyncWait = []) := by
  refine ⟨⟨?_, ?_⟩, ?_, ?_⟩
  · exact check_discovery
      (fun e => allBefore Action.isControllerRun Action.isConsumerRun e.actions)
      (by decide) adapter envD
  · exact of_decide_eq_true (check_discovery
      (fun e => decide (e.actions.filter Action.isSyncWait = []))
      (by decide) adapter envD)
  · exact check_sidecar
      (fun e => allBefore Action.isControllerRun Action.isConsumerRun e.actions)
      (by decide) adapter meshSet envS
  · exact of_decide_eq_true (check_sidecar
      (fun e => decide (e.actions.filter Action.isSyncWait = []))
      (by decide) adapter meshSet envS)

/-- C5: if `aggregate.MakeCache` fails in the discovery command's Kubernetes
path, `RunE` returns that error immediately: the discovery service is never
constructed and no Run loop is started — startup is all-or-nothing. -/
theorem make_cache_failure_is_all_or_nothing (env : DiscoveryEnv) :
    env.tprClientOk = true → env.registerOk = true → env.makeCacheOk = false →
    (discoveryRunE KubernetesAdapter env).outcome =
        Outcome.err GoError.makeCacheFailed ∧
    (discoveryRunE KubernetesAdapter env).actions.filter
        Action.isNewDiscoveryService = [] ∧
    (discoveryRunE KubernetesAdapter env).actions.filter Action.isRunLoop = [] := by
  rcases env with ⟨_ | _, _ | _, _ | _, _ | _⟩ <;> decide

/-- Witness for C5 at the concrete environment where only `MakeCache` fails. -/
theorem make_cache_failure_is_all_or_nothing_witness :
    DiscoveryEnv.tprClientOk ⟨true, true, false, true⟩ = true ∧
    DiscoveryEnv.registerOk ⟨true, true, false, true⟩ = true ∧
    DiscoveryEnv.makeCacheOk ⟨true, true, false, true⟩ = false ∧
    ((discoveryRunE KubernetesAdapter ⟨true, true, false, true⟩).outcome =
        Outcome.err GoError.makeCacheFailed ∧
     (discoveryRunE KubernetesAdapter ⟨true, true, false, true⟩).actions.filter
        Action.isNewDiscoveryService = [] ∧
     (discoveryRunE KubernetesAdapter ⟨true, true, false, true⟩).actions.filter
        Action.isRunLoop = []) :=
  ⟨rfl, rfl, rfl,
   make_cache_failure_is_all_or_nothing ⟨true, true, false, true⟩ rfl rfl rfl⟩

/-- C7 counterexample: in the discovery command (Kubernetes adapter, all
constructions succeeding) the trace contains no join of the launched loops:
after `cmd.WaitSignal` returns, `RunE` returns nil at once, without waiting
for any loop to stop. -/
theorem command_returns_without_joining_loops :
    (discoveryRunE KubernetesAdapter ⟨true, true, true, true⟩).actions.filter
        Action.isJoin = [] ∧
    (discoveryRunE KubernetesAdapter ⟨true, true, true, true⟩).actions.getLast?
        = some Action.waitSignal ∧
    (discoveryRunE KubernetesAdapter ⟨true, true, true, true⟩).outcome
        = Outcome.ok := by decide

/-- C7 (amended): neither the discovery nor the sidecar command ever joins
its launched loops: no join action occurs in any trace, and nothing follows
the `cmd.WaitSignal` wait, so the command returns while the loops are
fire-and-forget goroutines. -/
theorem commands_never_join_launched_loops (adapter : String)
    (meshSet : Bool) (envD : DiscoveryEnv) (envS : SidecarEnv) :
    ((discoveryRunE adapter envD).actions.filter Action.isJoin = [] ∧
     nothingAfterWait (discoveryRunE adapter envD).actions = true) ∧
    ((sidecarRunE adapter meshSet envS).actions.filter Action.isJoin = [] ∧
     nothingAfterWait (sidecarRunE adapter meshSet envS).actions = true) := by
  refine ⟨⟨?_, ?_⟩, ?_, ?_⟩
  · exact of_decide_eq_true (check_discovery
      (fun e => decide (e.actions.filter Action.isJoin = []))
      (by decide) adapter envD)
  · exact check_discovery (fun e => nothingAfterWait e.actions) (by decide) adapter envD
  · exact of_decide_eq_true (check_sidecar
      (fun e => decide (e.actions.filter Action.isJoin = []))
      (by decide) adapter meshSet envS)
  · exact check_sidecar (fun e => nothingAfterWait e.actions) (by decide)
      adapter meshSet envS

/-- C8: in the discovery command's Kubernetes path every launch of the config
controller's Run loop is strictly preceded by a completed
`tprClient.RegisterResources()` call, and a registration failure makes `RunE`
return the error with no loop started. -/
theorem register_resources_precedes_config_run (env : DiscoveryEnv) :
    precededBy Action.isRegister Action.isConfigRun
      (discoveryRunE KubernetesAdapter env).actions false = true ∧
    (env.tprClientOk = true → env.registerOk = false →
      (discoveryRunE KubernetesAdapter env).outcome =
          Outcome.err GoError.registerFailed ∧
      (discoveryRunE KubernetesAdapter env).actions.filter Action.isRunLoop = []) := by
  rcases env with ⟨_ | _, _ | _, _ | _, _ | _⟩ <;> decide

/-- Witness for C8: ordering at the all-success environment, failure
behaviour at the environment where only registration fails. -/
theorem register_resources_precedes_config_run_witness :
    precededBy Action.isRegister Action.isConfigRun
      (discoveryRunE KubernetesAdapter ⟨true, true, true, true⟩).actions false = true ∧
    DiscoveryEnv.tprClientOk ⟨true, false, true, true⟩ = true ∧
    DiscoveryEnv.registerOk ⟨true, false, true, true⟩ = false ∧
    ((discoveryRunE KubernetesAdapter ⟨true, false, true, true⟩).outcome =
        Outcome.err GoError.registerFailed ∧
     (discoveryRunE KubernetesAdapter ⟨true, false, true, true⟩).actions.filter
        Action.isRunLoop = []) :=
  ⟨(register_resources_precedes_config_run ⟨true, true, true, true⟩).1, rfl, rfl,
   (register_resources_precedes_config_run ⟨true, false, true, true⟩).2 rfl rfl⟩

/-- C9: in the sidecar command's Kubernetes branch the `:=`-declared inner
controllers shadow the outer nil variables: the branch does construct a kube
service controller and a TPR config controller, yet the watcher is built over
nil controllers and the launched Run loops target nil interfaces. -/
theorem sidecar_kubernetes_controllers_shadowed_nil (env : SidecarEnv) :
    env.tprClientOk = true → env.watcherOk = true →
    Action.newKubeController ∈ (sidecarRunE KubernetesAdapter true env).actions ∧
    Action.newTprController ∈ (sidecarRunE KubernetesAdapter true env).actions ∧
    Action.newWatcher none none ∈ (sidecarRunE KubernetesAdapter true env).actions ∧
    Action.runServiceController none true ∈
      (sidecarRunE KubernetesAdapter true env).actions ∧
    Action.runConfigController none true ∈
      (sidecarRunE KubernetesAdapter true env).actions := by
  rcases env with ⟨_ | _, _ | _, _ | _, _ | _, _ | _⟩ <;> decide

/-- Witness for C9 at the all-success sidecar environment. -/
theorem sidecar_kubernetes_controllers_shadowed_nil_witness :
    SidecarEnv.tprClientOk ⟨true, true, true, true, true⟩ = true ∧
    SidecarEnv.watcherOk ⟨true, true, true, true, true⟩ = true ∧
    (Action.newKubeController ∈
        (sidecarRunE KubernetesAdapter true ⟨true, true, true, true, true⟩).actions ∧
     Action.newTprController ∈
        (sidecarRunE KubernetesAdapter true ⟨true, true, true, true, true⟩).actions ∧
     Action.newWatcher none none ∈
        (sidecarRunE KubernetesAdapter true ⟨true, true, true, true, true⟩).actions ∧
     Action.runServiceController none true ∈
        (sidecarRunE KubernetesAdapter true ⟨true, true, true, true, true⟩).actions ∧
     Action.runConfigController none true ∈
        (sidecarRunE KubernetesAdapter true ⟨true, true, true, true, true⟩).actions) :=
  ⟨rfl, rfl,
   sidecar_kubernetes_controllers_shadowed_nil ⟨true, true, true, true, true⟩ rfl rfl⟩

/-- C10: `PersistentPreRunE` defaults an empty adapter flag to Kubernetes,
but for any adapter value other than the two known ones it matches no branch
and returns a nil error while `client`, `vmsClient` and `mesh` stay unset;
the sidecar command then dereferences the nil `mesh` unconditionally at line
220, panicking before doing anything else. -/
theorem prerun_unknown_adapter_leaves_mesh_nil (a : String) (env : PreRunEnv)
    (envS : SidecarEnv) :
    (persistentPreRunE "" env).1.adapter = KubernetesAdapter ∧
    (a ≠ "" → a ≠ KubernetesAdapter → a ≠ VMsAdapter →
      persistentPreRunE a env = (⟨a, false, false, false⟩, none) ∧
      sidecarRunE a false envS =
        ⟨[], Outcome.nilPanic "mesh.IngressControllerMode"⟩) := by
  constructor
  · rcases env with ⟨_ | _, _ | _, _ | _⟩ <;> decide
  · intro h0 h1 h2
    constructor
    · simp [persistentPreRunE, h0, h1, h2]
    · rfl

/-- Witness for C10 at the unknown adapter value `"Consul"`. -/
theorem prerun_unknown_adapter_leaves_mesh_nil_witness :
    ("Consul" ≠ "" ∧ "Consul" ≠ KubernetesAdapter ∧ "Consul" ≠ VMsAdapter) ∧
    (persistentPreRunE "" ⟨true, true, true⟩).1.adapter = KubernetesAdapter ∧
    (persistentPreRunE "Consul" ⟨true, true, true⟩ =
        (⟨"Consul", false, false, false⟩, none) ∧
     sidecarRunE "Consul" false ⟨true, true, true, true, true⟩ =
        ⟨[], Outcome.nilPanic "mesh.IngressControllerMode"⟩) :=
  ⟨⟨by decide, by decide, by decide⟩,
   (prerun_unknown_adapter_leaves_mesh_nil "Consul" ⟨true, true, true⟩
      ⟨true, true, true, true, true⟩).1,
   (prerun_unknown_adapter_leaves_mesh_nil "Consul" ⟨true, true, true⟩
      ⟨true, true, true, true, true⟩).2 (by decide) (by decide) (by decide)⟩

/-- C6: for a `ConfigKey` claimed by two registered sources, the merged view
returns exactly the first-registered source's object from `Get`, keeps it and
suppresses the loser in `List`, and reports the losing object as a conflict;
and in the discovery command's Kubernetes path the cache is built over the
TPR source registered before the ingress source. -/
theorem aggregate_first_registered_source_wins
    (A B : List ConfigObject) (a b : ConfigObject) (k : ConfigKey)
    (ha : findByKey A k = some a) (hb : findByKey B k = some b) (hbA : b ∉ A)
    (env : DiscoveryEnv) (h1 : env.tprClientOk = true) (h2 : env.registerOk = true) :
    aggregateGet [A, B] k = some a ∧
    b ∈ aggregateConflicts [A, B] ∧
    a ∈ aggregateList [A, B] k.kind ∧
    b ∉ aggregateList [A, B] k.kind ∧
    Action.makeCache [CtrlVal.tprController, CtrlVal.ingressController] ∈
      (discoveryRunE KubernetesAdapter env).actions := by
  rcases findByKey_mem ha with ⟨haMem, haKey⟩
  rcases findByKey_mem hb with ⟨hbMem, hbKey⟩
  have hClaim : claimsKey A k = true := by
    simp [claimsKey, ha]
  refine ⟨?_, ?_, ?_, ?_, ?_⟩
  · simp [aggregateGet, ha]
  · simp only [aggregateConflicts, losersTo, List.flatten_cons, List.flatten_nil,
      List.append_nil]
    refine List.mem_append_left _ (List.mem_filter.mpr ⟨hbMem, ?_⟩)
    rw [hbKey]
    exact hClaim
  · simp only [aggregateList, aggregateListAux, List.mem_append]
    exact Or.inl (mem_selectKind haMem (by rw [haKey]) rfl)
  · intro hmem
    simp only [aggregateList, aggregateListAux, List.append_nil, List.mem_append] at hmem
    rcases hmem with hmem | hmem
    · exact hbA (selectKind_mem hmem).1
    · have := (selectKind_mem hmem).2.2
      rw [hbKey] at this
      simp [hClaim] at this
  · revert h1 h2
    rcases env with ⟨_ | _, _ | _, _ | _, _ | _⟩ <;> decide

/-- The spec §8 scenario key (kind "route", namespace "default", name "r1"). -/
def routeKey : ConfigKey := ⟨"route", "default", "r1"⟩

/-- Source A's object for `routeKey`. -/
def objA : ConfigObject := ⟨routeKey, "payloadA", "v1"⟩

/-- Source B's conflicting object for `routeKey`. -/
def objB : ConfigObject := ⟨routeKey, "payloadB", "v1"⟩

/-- Witness for C6 at the spec §8 scenario: both sources publish an object
for `routeKey` with different payloads, source A registered first. -/
theorem aggregate_first_registered_source_wins_witness :
    (findByKey [objA] routeKey = some objA ∧ findByKey [objB] routeKey = some objB ∧
     objB ∉ [objA] ∧
     DiscoveryEnv.tprClientOk ⟨true, true, true, true⟩ = true ∧
     DiscoveryEnv.registerOk ⟨true, true, true, true⟩ = true) ∧
    (aggregateGet [[objA], [objB]] routeKey = some objA ∧
     objB ∈ aggregateConflicts [[objA], [objB]] ∧
     objA ∈ aggregateList [[objA], [objB]] routeKey.kind ∧
     objB ∉ aggregateList [[objA], [objB]] routeKey.kind ∧
     Action.makeCache [CtrlVal.tprController, CtrlVal.ingressController] ∈
       (discoveryRunE KubernetesAdapter ⟨true, true, true, true⟩).actions) :=
  ⟨⟨by decide, by decide, by decide, rfl, rfl⟩,
   aggregate_first_registered_source_wins [objA] [objB] objA objB routeKey
     (by decide) (by decide) (by decide) ⟨true, true, true, true⟩ rfl rfl⟩

end Pilot
